import Mathlib

/-!
Shallow embedding of `flight_hotel_finder.py` (class `FlightHotelFinderAgent`)
from the AITravelAssistant repository.

Modelling conventions:
* JSON values returned by the upstream marketplace API are an inductive `Json`.
* Python numbers (ints and floats) are modelled as exact rationals `ℚ`;
  dates are days since an epoch (`ℤ`), instants are seconds (`ℚ`).
* Fallible Python expressions are translated to `Except PyErr _`; each
  `try/except` of the source becomes an explicit handler on that value.
* The pseudo-random source (`random.choice` / `randint` / `uniform`) is an
  ambient stream of draws (`RandStream`); the Python contract of each
  sampling primitive (result within the requested range) is realised for
  every possible stream.
* Network I/O is an `Upstream` record giving the response of every endpoint;
  a response is either a transport error or a status code plus an optional
  (`none` = unparsable) JSON body.
-/

/-- Kinds of Python exception that the translated code can raise or catch. -/
inductive PyErr where
  | keyError
  | indexError
  | typeError
  | valueError
  | attributeError
  | zeroDivisionError
  | transportError
  | httpError
  deriving DecidableEq, Repr

/-- JSON values delivered by the upstream API (also used for values the
Python code stores untyped, e.g. the cached access token). -/
inductive Json where
  | null
  | bool (b : Bool)
  | num (q : ℚ)
  | str (s : String)
  | arr (elems : List Json)
  | obj (fields : List (String × Json))

/-- Subscript keys: Python `x[k]` with a string or integer key. -/
inductive JKey where
  | s (k : String)
  | i (n : Nat)

/-- Python truthiness (`bool(x)`) of a JSON value. -/
def pyTruthy : Json → Bool
  | .null => false
  | .bool b => b
  | .num q => decide (q ≠ 0)
  | .str s => decide (s ≠ "")
  | .arr xs => !xs.isEmpty
  | .obj kvs => !kvs.isEmpty

/-- First-match association-list lookup, the model of Python dict lookup. -/
def jlookup : List (String × Json) → String → Option Json
  | [], _ => none
  | (k, v) :: rest, key => if k = key then some v else jlookup rest key

/-- Python subscripting `x[k]`: dict lookup (KeyError when absent; our dict
keys are strings, so an integer subscript on a dict is a KeyError as well),
list/str indexing (IndexError out of range), TypeError otherwise. -/
def getItem : Json → JKey → Except PyErr Json
  | .obj kvs, .s k =>
    match jlookup kvs k with
    | some v => .ok v
    | none => .error .keyError
  | .obj _, .i _ => .error .keyError
  | .arr xs, .i n =>
    match xs.get? n with
    | some v => .ok v
    | none => .error .indexError
  | .arr _, .s _ => .error .typeError
  | .str s, .i n =>
    match s.toList.get? n with
    | some c => .ok (.str (String.mk [c]))
    | none => .error .indexError
  | .str _, .s _ => .error .typeError
  | _, _ => .error .typeError

/-- Python `x.get(k, default)`: only dicts have `.get`, anything else raises
AttributeError. -/
def pyAttrGet (j : Json) (k : String) (dflt : Json) : Except PyErr Json :=
  match j with
  | .obj kvs =>
    match jlookup kvs k with
    | some v => .ok v
    | none => .ok dflt
  | _ => .error .attributeError

/-- Python `len(x)` for sized values; TypeError otherwise. -/
def pyLen : Json → Except PyErr Nat
  | .arr xs => .ok xs.length
  | .str s => .ok s.toList.length
  | .obj kvs => .ok kvs.length
  | _ => .error .typeError

/-- Python `x[:3]` followed by iteration over the slice: lists and strings
are sliceable (a string slice iterates its characters), everything else
raises TypeError. -/
def pySlice3 : Json → Except PyErr (List Json)
  | .arr xs => .ok (xs.take 3)
  | .str s => .ok ((s.toList.take 3).map (fun c => .str (String.mk [c])))
  | _ => .error .typeError

/-- Iteration `for x in v`: lists yield elements, strings their characters,
dicts their keys; other values raise TypeError. -/
def iterElems : Json → Except PyErr (List Json)
  | .arr xs => .ok xs
  | .str s => .ok (s.toList.map (fun c => .str (String.mk [c])))
  | .obj kvs => .ok (kvs.map (fun kv => .str kv.1))
  | _ => .error .typeError

/-- Error-propagating map over a list (the shape of the source's list
comprehensions over fallible subscripts). -/
def mapME (f : α → Except PyErr β) : List α → Except PyErr (List β)
  | [] => .ok []
  | a :: as =>
    match f a with
    | .error e => .error e
    | .ok b =>
      match mapME f as with
      | .error e => .error e
      | .ok bs => .ok (b :: bs)

/-! ### Character-level string helpers (models of the `str` methods used) -/

/-- Numeric value of a digit run (helper for the model of `float(...)`). -/
def digitsVal (cs : List Char) : Nat :=
  cs.foldl (fun a c => 10 * a + (c.toNat - 48)) 0

/-- Model of Python `float(s)` on decimal numerals: optional surrounding
whitespace, optional sign, digits with an optional fractional part
(`"3"`, `"+3."`, `"-.5"`, `"300.00"`). Exotic float syntax (exponents,
`inf`, `nan`) is outside the model. Returns `none` when the string does not
parse (Python: ValueError). -/
def parseFloat? (s : String) : Option ℚ :=
  let cs := (s.toList.dropWhile (·.isWhitespace)).reverse.dropWhile (·.isWhitespace) |>.reverse
  let (neg, cs) :=
    match cs with
    | '-' :: r => (true, r)
    | '+' :: r => (false, r)
    | r => (false, r)
  let intPart := cs.takeWhile (·.isDigit)
  let rest := cs.dropWhile (·.isDigit)
  let val? : Option ℚ :=
    match rest with
    | [] => if intPart.isEmpty then none else some ((digitsVal intPart : ℚ))
    | '.' :: frac =>
      if frac.all (·.isDigit) && (!intPart.isEmpty || !frac.isEmpty) then
        some ((digitsVal intPart : ℚ) + (digitsVal frac : ℚ) / (10 ^ frac.length : ℕ))
      else none
    | _ => none
  val?.map (fun q => if neg then -q else q)

/-- Python `float(x)` on a JSON value: numbers pass through, booleans become
0/1, strings are parsed (ValueError on failure), anything else is a
TypeError. -/
def pyFloat : Json → Except PyErr ℚ
  | .num q => .ok q
  | .bool b => .ok (if b then 1 else 0)
  | .str s =>
    match parseFloat? s with
    | some q => .ok q
    | none => .error .valueError
  | _ => .error .typeError

/-- Python `round(q)`: round-half-to-even to an integer. -/
def pyRound (q : ℚ) : ℤ :=
  if q - ⌊q⌋ < 1 / 2 then ⌊q⌋
  else if 1 / 2 < q - ⌊q⌋ then ⌊q⌋ + 1
  else if ⌊q⌋ % 2 = 0 then ⌊q⌋ else ⌊q⌋ + 1

/-- Python `round(q, 1)`: round-half-to-even to one decimal place. -/
def pyRound1 (q : ℚ) : ℚ := (pyRound (q * 10) : ℚ) / 10

/-- Replace every occurrence of a (non-empty) pattern, with explicit fuel
for structural recursion; fuel `= length of the input` suffices. -/
def replaceFuel (pat rep : List Char) : Nat → List Char → List Char
  | _, [] => []
  | 0, s => s
  | fuel + 1, c :: s =>
    if pat ≠ [] ∧ (c :: s).take pat.length = pat then
      rep ++ replaceFuel pat rep fuel ((c :: s).drop pat.length)
    else
      c :: replaceFuel pat rep fuel s

/-- Model of Python `s.replace(pat, rep)` for non-empty patterns. -/
def pyReplace (s pat rep : String) : String :=
  String.mk (replaceFuel pat.toList rep.toList s.toList.length s.toList)

/-- Split a character list at every occurrence of a separator character
(model of Python `s.split("T")`, keeping empty chunks). -/
def splitChar (sep : Char) : List Char → List (List Char)
  | [] => [[]]
  | c :: rest =>
    let r := splitChar sep rest
    if c = sep then [] :: r
    else
      match r with
      | [] => [[c]]
      | g :: gs => (c :: g) :: gs

/-- Model of Python `s.title()` (ASCII): a letter is uppercased when the
previous character is not a letter, lowercased otherwise. -/
def titleChars : Bool → List Char → List Char
  | _, [] => []
  | prevAlpha, c :: cs =>
    (if c.isAlpha then (if prevAlpha then c.toLower else c.toUpper) else c)
      :: titleChars c.isAlpha cs

/-- Model of Python `s.title()`. -/
def pyTitle (s : String) : String := String.mk (titleChars false s.toList)

/-- Two-digit zero-padded rendering of an hour (model of `f"{h:02d}"`). -/
def pad2 (n : Nat) : String := if n < 10 then "0" ++ toString n else toString n

/-- Rendering of a JSON value inside an f-string (model of `str(x)`); only
the string and integer cases are exercised by any claim, the remaining
cases are schematic tags. -/
def pyFormat : Json → String
  | .str s => s
  | .num q => if q.den = 1 then toString q.num else toString q.num ++ "/" ++ toString q.den
  | .bool b => if b then "True" else "False"
  | .null => "None"
  | .arr _ => "<list>"
  | .obj _ => "<dict>"

/-! ### Network and token-manager model (`_get_amadeus_token`, lines 28-58) -/

/-- Result of one HTTP request: a transport-level failure (`requests`
exception) or a response with a status code and a body that either parses
as JSON or does not (`none`; `response.json()` raises ValueError). -/
inductive HttpResult where
  | transportErr
  | resp (status : Nat) (body : Option Json)

/-- The two instance attributes that cache the OAuth token
(`self.access_token`, `self.token_expiry`). The token is stored untyped,
exactly as assigned from the response body; the expiry is an instant in
seconds. -/
structure TokenState where
  access_token : Option Json
  token_expiry : Option ℚ

/-- Behaviour of every upstream endpoint during one resolver call. The auth
endpoint is indexed by a call counter (it can be hit more than once per
operation); the hotel-offers endpoint is indexed by the hotel id it is
queried with. -/
structure Upstream where
  auth : Nat → HttpResult
  city : HttpResult
  flights : HttpResult
  hotelList : HttpResult
  hotelOffers : Json → HttpResult

/-- Python `expires_in - 60`: the subtraction accepts ints/floats and bools,
TypeError otherwise. -/
def pyToNum : Json → Except PyErr ℚ
  | .num q => .ok q
  | .bool b => .ok (if b then 1 else 0)
  | _ => .error .typeError

/-- The guard `if self.access_token and self.token_expiry and now < self.token_expiry`
(line 33): both attributes set, the token truthy (a datetime is always
truthy), and the instant strictly before the stored expiry. -/
def cachedValid (now : ℚ) (st : TokenState) : Bool :=
  match st.access_token, st.token_expiry with
  | some t, some e => pyTruthy t && decide (now < e)
  | _, _ => false

/-- The token exchange (the `try` body plus handler, lines 36-58), run when
the cache misses. Mirrors the source statement by statement; note that
`self.access_token` is assigned (line 50) before `token_data["expires_in"]`
is read (line 52), so a body carrying `access_token` but no usable
`expires_in` mutates only the first attribute before the exception handler
returns `None`. -/
def refreshToken (now : ℚ) (st : TokenState) : HttpResult → Option Json × TokenState × Bool
  | .transportErr => (none, st, true)
  | .resp status body =>
    if 400 ≤ status ∧ status < 600 then (none, st, true)
    else
      match body with
      | none => (none, st, true)
      | some tokenData =>
        match getItem tokenData (.s "access_token") with
        | .error _ => (none, st, true)
        | .ok access =>
          match getItem tokenData (.s "expires_in") with
          | .error _ => (none, { st with access_token := some access }, true)
          | .ok ej =>
            match pyToNum ej with
            | .error _ => (none, { st with access_token := some access }, true)
            | .ok q =>
              (some access,
               { access_token := some access, token_expiry := some (now + q - 60) },
               true)

/-- Model of `_get_amadeus_token` (lines 28-58). Returns the value Python
returns (`None` or the token), the instance state after the call, and
whether a network request was issued. -/
def getAmadeusToken (now : ℚ) (st : TokenState) (authResp : HttpResult) :
    Option Json × TokenState × Bool :=
  if cachedValid now st then (st.access_token, st, false)
  else refreshToken now st authResp

/-- One call of `self._get_amadeus_token()` against the upstream, advancing
the auth-endpoint call counter when a request was issued. -/
def tokenAcquire (now : ℚ) (up : Upstream) (st : TokenState) (k : Nat) :
    Option Json × TokenState × Nat :=
  match getAmadeusToken now st (up.auth k) with
  | (r, st', used) => (r, st', if used then k + 1 else k)

/-- Truthiness of `token` / `destination_code` variables that hold either
Python `None` or a JSON value (`if not token: ...`). -/
def truthyOpt : Option Json → Bool
  | none => false
  | some j => pyTruthy j

/-- The `expires_in` number a successful token exchange would store, read
off an auth response (spec-side extractor used to state the refresh
post-condition). -/
def respExpiresIn : HttpResult → Option ℚ
  | .transportErr => none
  | .resp status body =>
    if 400 ≤ status ∧ status < 600 then none
    else
      match body with
      | none => none
      | some j =>
        match getItem j (.s "expires_in") with
        | .ok ej =>
          match pyToNum ej with
          | .ok q => some q
          | .error _ => none
        | .error _ => none

/-- The `access_token` value a token exchange would cache, read off an auth
response (spec-side extractor used to state the failure post-condition). -/
def respAccessToken : HttpResult → Option Json
  | .transportErr => none
  | .resp status body =>
    if 400 ≤ status ∧ status < 600 then none
    else
      match body with
      | none => none
      | some j =>
        match getItem j (.s "access_token") with
        | .ok a => some a
        | .error _ => none

/-! ### Location resolver (`_get_iata_code`, lines 86-111) -/

/-- Body of the city-search handler: `data.get("data")` truthy and
non-empty, then `data["data"][0]["iataCode"]`; any exception is caught and
yields `None`. -/
def cityExtract (r : HttpResult) : Option Json :=
  match r with
  | .transportErr => none
  | .resp status body =>
    if 400 ≤ status ∧ status < 600 then none
    else
      match body with
      | none => none
      | some j =>
        match pyAttrGet j "data" .null with
        | .error _ => none
        | .ok d =>
          if pyTruthy d then
            match pyLen d with
            | .error _ => none
            | .ok n =>
              if 0 < n then
                match getItem d (.i 0) with
                | .error _ => none
                | .ok first =>
                  match getItem first (.s "iataCode") with
                  | .error _ => none
                  | .ok code => some code
              else none
          else none

/-- Model of `_get_iata_code` (lines 86-111): acquire a token (returning
`None` when it is falsy) and query the city-search endpoint; never raises. -/
def getIataCode (now : ℚ) (up : Upstream) (st : TokenState) (k : Nat) :
    Option Json × TokenState × Nat :=
  match tokenAcquire now up st k with
  | (tok, st', k') =>
    if truthyOpt tok then (cityExtract up.city, st', k')
    else (none, st', k')

/-! ### Flight offers (`get_flight_options`, lines 113-201) -/

/-- A normalized flight offer (the dict built at lines 180-187). The
carrier display name is kept as the raw value Python would store (a string
for known upstream shapes). -/
structure Flight where
  airline : Json
  departure_time : String
  arrival_time : String
  duration : String
  stops : Nat
  price : ℤ

/-- The fixed carrier-code lookup table (lines 168-177). -/
def airlinesTable : List (String × String) :=
  [("AA", "American Airlines"), ("UA", "United Airlines"), ("DL", "Delta Airlines"),
   ("LH", "Lufthansa"), ("BA", "British Airways"), ("AF", "Air France"),
   ("EK", "Emirates"), ("QR", "Qatar Airways")]

/-- String-keyed first-match lookup in a fixed table. -/
def tlookup : List (String × String) → String → Option String
  | [], _ => none
  | (k, v) :: rest, key => if k = key then some v else tlookup rest key

/-- Model of `airlines.get(carrier_code, carrier_code)` (line 178): strings
go through the table, other hashable values fall through unchanged, and
unhashable values (lists, dicts) raise TypeError. -/
def airlineName : Json → Except PyErr Json
  | .str s =>
    match tlookup airlinesTable s with
    | some nm => .ok (.str nm)
    | none => .ok (.str s)
  | .arr _ => .error .typeError
  | .obj _ => .error .typeError
  | j => .ok j

/-- Model of `x.split("T")[1][:5]` (lines 160-161): `x` must be a string
(AttributeError otherwise); indexing the split list out of range is an
IndexError. -/
def clockTime : Json → Except PyErr String
  | .str s =>
    match splitChar 'T' s.toList with
    | _ :: p :: _ => .ok (String.mk (p.take 5))
    | _ => .error .indexError
  | _ => .error .attributeError

/-- Model of the duration reformatting (line 162):
`x.replace("PT", "").replace("H", "h ").replace("M", "m")` on a string,
AttributeError otherwise. -/
def durFmt : Json → Except PyErr String
  | .str s => .ok (pyReplace (pyReplace (pyReplace s "PT" "") "H" "h ") "M" "m")
  | _ => .error .attributeError

/-- Model of the per-offer parse (the `try` body, lines 153-188), statement
by statement in source order. -/
def parseFlightOffer (offer : Json) : Except PyErr Flight :=
  match getItem offer (.s "price") with
  | .error e => .error e
  | .ok pj =>
    match getItem pj (.s "total") with
    | .error e => .error e
    | .ok tj =>
      match pyFloat tj with
      | .error e => .error e
      | .ok price =>
        match getItem offer (.s "itineraries") with
        | .error e => .error e
        | .ok itineraries =>
          match getItem itineraries (.i 0) with
          | .error e => .error e
          | .ok it0 =>
            match getItem it0 (.s "segments") with
            | .error e => .error e
            | .ok segs =>
              match getItem segs (.i 0) with
              | .error e => .error e
              | .ok outbound =>
                match getItem outbound (.s "carrierCode") with
                | .error e => .error e
                | .ok carrier =>
                  match getItem outbound (.s "departure") with
                  | .error e => .error e
                  | .ok depObj =>
                    match getItem depObj (.s "at") with
                    | .error e => .error e
                    | .ok depAt =>
                      match clockTime depAt with
                      | .error e => .error e
                      | .ok departure_time =>
                        match getItem outbound (.s "arrival") with
                        | .error e => .error e
                        | .ok arrObj =>
                          match getItem arrObj (.s "at") with
                          | .error e => .error e
                          | .ok arrAt =>
                            match clockTime arrAt with
                            | .error e => .error e
                            | .ok arrival_time =>
                              match getItem outbound (.s "duration") with
                              | .error e => .error e
                              | .ok durJ =>
                                match durFmt durJ with
                                | .error e => .error e
                                | .ok duration =>
                                  match pyLen segs with
                                  | .error e => .error e
                                  | .ok nsegs =>
                                    match airlineName carrier with
                                    | .error e => .error e
                                    | .ok airline =>
                                      .ok { airline := airline,
                                            departure_time := departure_time,
                                            arrival_time := arrival_time,
                                            duration := duration,
                                            stops := nsegs - 1,
                                            price := pyRound price }

/-- The exception classes caught by the per-offer handler
(`except (KeyError, IndexError)`, line 189). -/
def caughtByOfferLoop (e : PyErr) : Bool :=
  match e with
  | .keyError => true
  | .indexError => true
  | _ => false

/-- The offer loop (lines 152-191): parse failures of a caught class skip
the offer, any other exception propagates to the outer handler. -/
def flightLoop : List Json → Except PyErr (List Flight)
  | [] => .ok []
  | o :: rest =>
    match parseFlightOffer o with
    | .ok f =>
      match flightLoop rest with
      | .ok fs => .ok (f :: fs)
      | .error e => .error e
    | .error e => if caughtByOfferLoop e then flightLoop rest else .error e

/-- Response handling of the flight-offers call (lines 147-191):
`raise_for_status`, `response.json()`, `data.get("data", [])[:3]`, then the
offer loop. -/
def fetchParsedFlights (r : HttpResult) : Except PyErr (List Flight) :=
  match r with
  | .transportErr => .error .transportError
  | .resp status body =>
    if 400 ≤ status ∧ status < 600 then .error .httpError
    else
      match body with
      | none => .error .valueError
      | some j =>
        match pyAttrGet j "data" (.arr []) with
        | .error e => .error e
        | .ok d =>
          match pySlice3 d with
          | .error e => .error e
          | .ok elems => flightLoop elems

/-! ### Synthetic fallback generators (lines 321-386) -/

/-- The ambient pseudo-random source: a stream of raw integer draws and a
stream of raw rational draws. Each sampling primitive below maps a raw
draw into the requested range, which is the Python `random` module's
contract; quantifying over all streams covers every RNG outcome. -/
structure RandStream where
  ints : Nat → Nat
  reals : Nat → ℚ

/-- Model of `random.randint(lo, hi)` (inclusive bounds). -/
def randintN (lo hi : Nat) (raw : Nat) : Nat := lo + raw % (hi + 1 - lo)

/-- Model of `random.choice(xs)` on a non-empty list. -/
def listChoice (xs : List α) [Inhabited α] (raw : Nat) : α :=
  xs.getD (raw % xs.length) default

/-- Model of `random.uniform(lo, hi)`: `lo + (hi - lo) * u` with
`u ∈ [0, 1)` obtained as the fractional part of the raw draw. -/
def pyUniform (lo hi : ℚ) (raw : ℚ) : ℚ := lo + (hi - lo) * Int.fract raw

/-- The fixed airline-name pool of the mock generator (line 325). -/
def mockAirlines : List String := ["Delta", "United", "American", "Southwest", "JetBlue"]

/-- One iteration of the mock flight loop (lines 328-345), with the raw
draws taken from the stream in source order (airline, departure hour,
duration hours, stops, price, duration minutes). -/
def mkMockFlight (numTravelers : Nat) (rs : RandStream) (i : Nat) : Flight :=
  let airline := listChoice mockAirlines (rs.ints (6 * i))
  let depHour := randintN 6 22 (rs.ints (6 * i + 1))
  let durationHours := randintN 2 8 (rs.ints (6 * i + 2))
  let arrHour := (depHour + durationHours) % 24
  let stops := randintN 0 2 (rs.ints (6 * i + 3))
  let price := randintN 300 800 (rs.ints (6 * i + 4)) * numTravelers
  let mins := randintN 0 59 (rs.ints (6 * i + 5))
  { airline := .str airline,
    departure_time := pad2 depHour ++ ":00",
    arrival_time := pad2 arrHour ++ ":00",
    duration := toString durationHours ++ "h " ++ toString mins ++ "m",
    stops := stops,
    price := (price : ℤ) }

/-- Model of `_get_mock_flight_options` (lines 321-347): always exactly the
three generated offers, no network, no failure. -/
def mockFlightOptions (numTravelers : Nat) (rs : RandStream) : List Flight :=
  [mkMockFlight numTravelers rs 0, mkMockFlight numTravelers rs 1, mkMockFlight numTravelers rs 2]

/-! ### `get_flight_options` (lines 113-201) -/

/-- Model of `get_flight_options`. Dates are request parameters only (they
are formatted with `strftime`, which cannot fail on valid dates) and do not
influence the control flow, so they are not parameters of the model. The
function is total: every upstream behaviour is either handled or caught by
the outer `except Exception` (line 199), which falls back to mock data. -/
def getFlightOptions (now : ℚ) (numTravelers : Nat) (st : TokenState)
    (up : Upstream) (rs : RandStream) : List Flight :=
  let mock := mockFlightOptions numTravelers rs
  match tokenAcquire now up st 0 with
  | (tok, st1, k1) =>
    if truthyOpt tok then
      match getIataCode now up st1 k1 with
      | (code, _, _) =>
        if truthyOpt code then
          match fetchParsedFlights up.flights with
          | .error _ => mock
          | .ok [] => mock
          | .ok (f :: fs) => f :: fs
        else mock
    else mock

/-! ### Hotel offers (`get_hotel_options`, lines 203-319) -/

/-- A normalized hotel offer (the dict built at lines 296-303). -/
structure Hotel where
  name : Json
  location : String
  rating : ℚ
  price : ℤ
  total_price : ℤ
  amenities : List String

/-- The fixed category-to-score table (line 281). -/
def ratingMapLookup (s : String) : ℚ :=
  if s = "ECONOMY" then 2
  else if s = "STANDARD" then 3
  else if s = "SUPERIOR" then 4
  else if s = "DELUXE" then 5
  else 3

/-- The rating computation (lines 276-282): `float(rating_raw)` guarded by
`except ValueError` only, so a ValueError (an unparsable string) falls to
the category table while any other exception (e.g. TypeError on a
non-string non-number) propagates to the per-hotel handler. -/
def hotelRating (raw : Json) : Except PyErr ℚ :=
  match pyFloat raw with
  | .ok q => .ok q
  | .error .valueError =>
    match raw with
    | .str s => .ok (ratingMapLookup s)
    | _ => .ok 3
  | .error e => .error e

/-- The amenity loop (lines 288-291): iterate the raw value; each element
must be a string (`.replace` on anything else raises AttributeError), and
is reformatted by replacing underscores with spaces and title-casing. -/
def processAmenities (raw : Json) : Except PyErr (List String) :=
  match iterElems raw with
  | .error e => .error e
  | .ok elems =>
    mapME
      (fun a =>
        match a with
        | .str s => .ok (pyTitle (pyReplace s "_" " "))
        | _ => .error .attributeError)
      elems

/-- The total-price extraction `float(offer["price"]["total"])` (used at
lines 285 and 301; the source evaluates it twice, with the same result). -/
def offerTotal (offer : Json) : Except PyErr ℚ :=
  match getItem offer (.s "price") with
  | .error e => .error e
  | .ok pj =>
    match getItem pj (.s "total") with
    | .error e => .error e
    | .ok tj => pyFloat tj

/-- The per-offer construction (the `try` body lines 268-305, from
`hotel_data`/`offer` onwards), statement by statement in source order:
name, location, rating, the per-night division (ZeroDivisionError when the
stay has zero nights), amenities, then the rounded record. -/
def buildHotel (destination : String) (checkIn checkOut : ℤ)
    (hotelData offer : Json) : Except PyErr Hotel :=
  match pyAttrGet hotelData "name" (.str (destination ++ " Hotel")) with
  | .error e => .error e
  | .ok name =>
    match pyAttrGet hotelData "address" (.obj []) with
    | .error e => .error e
    | .ok addr =>
      match pyAttrGet addr "cityName" (.str destination) with
      | .error e => .error e
      | .ok cityName =>
        let location := pyFormat cityName
        match pyAttrGet hotelData "rating" (.str "3") with
        | .error e => .error e
        | .ok ratingRaw =>
          match hotelRating ratingRaw with
          | .error e => .error e
          | .ok rating =>
            match offerTotal offer with
            | .error e => .error e
            | .ok total =>
              let nights := checkOut - checkIn
              if nights = 0 then .error .zeroDivisionError
              else
                let pricePerNight := total / (nights : ℚ)
                match pyAttrGet hotelData "amenities" (.arr []) with
                | .error e => .error e
                | .ok amenRaw =>
                  match processAmenities amenRaw with
                  | .error e => .error e
                  | .ok amen0 =>
                    let amenities :=
                      if amen0.isEmpty then ["Wi-Fi", "Breakfast"] else amen0
                    .ok { name := name,
                          location := location,
                          rating := pyRound1 rating,
                          price := pyRound pricePerNight,
                          total_price := pyRound total,
                          amenities := amenities.take 5 }

/-- One iteration of the hotel loop (the `try` body lines 250-305): request
the offers for one hotel id, skip (`.ok none`) when the offer list is
falsy or empty, otherwise extract `data[0]["hotel"]` / `data[0]["offers"][0]`
and build the record. Every exception value is swallowed by the caller. -/
def fetchHotelOffer (destination : String) (checkIn checkOut : ℤ)
    (r : HttpResult) : Except PyErr (Option Hotel) :=
  match r with
  | .transportErr => .error .transportError
  | .resp status body =>
    if 400 ≤ status ∧ status < 600 then .error .httpError
    else
      match body with
      | none => .error .valueError
      | some j =>
        match pyAttrGet j "data" .null with
        | .error e => .error e
        | .ok d =>
          if pyTruthy d then
            match pyLen d with
            | .error e => .error e
            | .ok n =>
              if n = 0 then .ok none
              else
                match getItem d (.i 0) with
                | .error e => .error e
                | .ok e0 =>
                  match getItem e0 (.s "hotel") with
                  | .error e => .error e
                  | .ok hotelData =>
                    match getItem e0 (.s "offers") with
                    | .error e => .error e
                    | .ok offersArr =>
                      match getItem offersArr (.i 0) with
                      | .error e => .error e
                      | .ok offer =>
                        match buildHotel destination checkIn checkOut hotelData offer with
                        | .error e => .error e
                        | .ok h => .ok (some h)
          else .ok none

/-- The hotel loop (lines 249-309): sequential fetches, one per id;
`except Exception` per iteration, so an exception or an empty offer list
skips the hotel and the loop continues. -/
def hotelLoop (destination : String) (checkIn checkOut : ℤ)
    (offersOf : Json → HttpResult) : List Json → List Hotel
  | [] => []
  | id :: rest =>
    match fetchHotelOffer destination checkIn checkOut (offersOf id) with
    | .ok (some h) => h :: hotelLoop destination checkIn checkOut offersOf rest
    | _ => hotelLoop destination checkIn checkOut offersOf rest

/-- Response handling of the hotels-by-city call plus the loop (lines
235-309): `raise_for_status`, `response.json()`, the emptiness guard (an
empty or falsy `data` returns mock, modelled as `.ok []`), the id
extraction `[hotel["hotelId"] for hotel in hotels_data["data"][:3]]`, then
the loop. -/
def fetchParsedHotels (destination : String) (checkIn checkOut : ℤ)
    (hl : HttpResult) (offersOf : Json → HttpResult) : Except PyErr (List Hotel) :=
  match hl with
  | .transportErr => .error .transportError
  | .resp status body =>
    if 400 ≤ status ∧ status < 600 then .error .httpError
    else
      match body with
      | none => .error .valueError
      | some j =>
        match pyAttrGet j "data" .null with
        | .error e => .error e
        | .ok d =>
          if pyTruthy d then
            match pyLen d with
            | .error e => .error e
            | .ok n =>
              if n = 0 then .ok []
              else
                match pySlice3 d with
                | .error e => .error e
                | .ok elems =>
                  match mapME (fun h => getItem h (.s "hotelId")) elems with
                  | .error e => .error e
                  | .ok ids => .ok (hotelLoop destination checkIn checkOut offersOf ids)
          else .ok []

/-- The mock hotel-name pool (lines 353-358). -/
def mockHotelNames (destination : String) : List String :=
  [destination ++ " Grand Hotel", destination ++ " Plaza",
   "The " ++ destination ++ " Inn", "Luxury Suites " ++ destination]

/-- The mock amenity pools (lines 360-365). -/
def mockAmenityOptions : List (List String) :=
  [["Wi-Fi", "Pool", "Gym", "Restaurant", "Bar"],
   ["Wi-Fi", "Breakfast", "Parking", "Room Service"],
   ["Wi-Fi", "Spa", "Restaurant", "Conference Room"],
   ["Wi-Fi", "Pool", "Breakfast", "Airport Shuttle"]]

/-- One iteration of the mock hotel loop (lines 369-384); the stay length
in days multiplies the nightly price into the total. -/
def mkMockHotel (destination : String) (checkIn checkOut : ℤ)
    (rs : RandStream) (i : Nat) : Hotel :=
  let name := listChoice (mockHotelNames destination) (rs.ints (3 * i))
  let rating := pyRound1 (pyUniform 3 5 (rs.reals i))
  let pricePerNight := randintN 80 300 (rs.ints (3 * i + 1))
  let amenities := listChoice mockAmenityOptions (rs.ints (3 * i + 2))
  { name := .str name,
    location := "Downtown " ++ destination,
    rating := rating,
    price := (pricePerNight : ℤ),
    total_price := (pricePerNight : ℤ) * (checkOut - checkIn),
    amenities := amenities }

/-- Model of `_get_mock_hotel_options` (lines 349-386): always exactly the
three generated offers, no network, no failure. -/
def mockHotelOptions (destination : String) (checkIn checkOut : ℤ)
    (rs : RandStream) : List Hotel :=
  [mkMockHotel destination checkIn checkOut rs 0,
   mkMockHotel destination checkIn checkOut rs 1,
   mkMockHotel destination checkIn checkOut rs 2]

/-- Model of `get_hotel_options` (lines 203-319). Total for the same
reason as `getFlightOptions`: the outer `except Exception` (line 317)
catches everything raised after the token/city steps, which are themselves
total. -/
def getHotelOptions (now : ℚ) (destination : String) (checkIn checkOut : ℤ)
    (st : TokenState) (up : Upstream) (rs : RandStream) : List Hotel :=
  let mock := mockHotelOptions destination checkIn checkOut rs
  match tokenAcquire now up st 0 with
  | (tok, st1, k1) =>
    if truthyOpt tok then
      match getIataCode now up st1 k1 with
      | (code, _, _) =>
        if truthyOpt code then
          match fetchParsedHotels destination checkIn checkOut up.hotelList up.hotelOffers with
          | .error _ => mock
          | .ok [] => mock
          | .ok (h :: hs) => h :: hs
        else mock
    else mock

/-! ### Fixtures used by the concrete scenarios below -/

/-- A deterministic random-stream fixture (all raw draws zero). -/
def rs0 : RandStream := ⟨fun _ => 0, fun _ => 0⟩

/-- A successful auth response body. -/
def authOkBody : Json := .obj [("access_token", .str "TOK"), ("expires_in", .num 1800)]

/-- A successful city-search response body resolving to one city code. -/
def cityOkBody : Json := .obj [("data", .arr [.obj [("iataCode", .str "PAR")]])]

/-- Upstream behaviour with working auth and city resolution and a given flight-offers payload. -/
def upFlights (offers : List Json) : Upstream :=
  { auth := fun _ => .resp 200 (some authOkBody),
    city := .resp 200 (some cityOkBody),
    flights := .resp 200 (some (.obj [("data", .arr offers)])),
    hotelList := .transportErr,
    hotelOffers := fun _ => .transportErr }

/-- Upstream behaviour where every call fails at the transport level. -/
def upDead : Upstream :=
  { auth := fun _ => .transportErr, city := .transportErr, flights := .transportErr,
    hotelList := .transportErr, hotelOffers := fun _ => .transportErr }

/-- Hotels-by-city response fixture listing one hotel id. -/
def hotelListBody : Json := .obj [("data", .arr [.obj [("hotelId", .str "H1")]])]

/-- Upstream behaviour with working auth, city and hotel-list steps and a given hotel-offers payload served for every hotel id. -/
def upHotelBody (body : Json) : Upstream :=
  { auth := fun _ => .resp 200 (some authOkBody),
    city := .resp 200 (some cityOkBody),
    flights := .transportErr,
    hotelList := .resp 200 (some hotelListBody),
    hotelOffers := fun _ => .resp 200 (some body) }

/-- Well-shaped flight-offer fixture with a given price payload. -/
def cxOffer (price : Json) : Json :=
  .obj [("price", .obj [("total", price)]),
        ("itineraries", .arr [.obj [("segments", .arr [
          .obj [("carrierCode", .str "AA"),
                ("departure", .obj [("at", .str "2025-03-01T08:30:00")]),
                ("arrival", .obj [("at", .str "2025-03-01T11:45:00")]),
                ("duration", .str "PT3H15M")]])]])]

/-- The same flight-offer fixture with the price field removed entirely. -/
def cxOfferNoPrice : Json :=
  .obj [("itineraries", .arr [.obj [("segments", .arr [
    .obj [("carrierCode", .str "AA"),
          ("departure", .obj [("at", .str "2025-03-01T08:30:00")]),
          ("arrival", .obj [("at", .str "2025-03-01T11:45:00")]),
          ("duration", .str "PT3H15M")]])]])]

/-- The record `parseFlightOffer` produces from `cxOffer` at a numeric price `q`. -/
def cxFlight (q : ℚ) : Flight :=
  { airline := .str "American Airlines", departure_time := "08:30",
    arrival_time := "11:45", duration := "3h 15m", stops := 0, price := pyRound q }

/-- Priced-offer fixture for hotels. -/
def cxPriceOffer (total : Json) : Json := .obj [("price", .obj [("total", total)])]

/-- The record `buildHotel` produces in the per-night witness scenario. -/
def cxHotelPN : Hotel :=
  { name := .str ("Nice" ++ " Hotel"), location := "Nice", rating := pyRound1 4,
    price := pyRound ((300 : ℚ) / (((3 : ℤ) - 0 : ℤ) : ℚ)),
    total_price := pyRound (300 : ℚ),
    amenities := ["Wi-Fi", "Breakfast"] }

/-- Hotel-offers response fixture with one offer carrying a rating and a total price. -/
def cxHotelBody (rating total : Json) : Json :=
  .obj [("data", .arr [
    .obj [("hotel", .obj [("rating", rating)]),
          ("offers", .arr [cxPriceOffer total])]])]

/-- The offer record of the rating-3.25 scenario. -/
def cxH8 : Hotel :=
  { name := .str ("Paris" ++ " Hotel"), location := "Paris",
    rating := pyRound1 (13/4),
    price := pyRound ((300 : ℚ) / (((3 : ℤ) - 0 : ℤ) : ℚ)),
    total_price := pyRound (300 : ℚ),
    amenities := ["Wi-Fi", "Breakfast"] }

/-- The offer record of the rating-9 scenario. -/
def cxH5 : Hotel :=
  { name := .str ("Paris" ++ " Hotel"), location := "Paris",
    rating := pyRound1 9,
    price := pyRound ((300 : ℚ) / (((3 : ℤ) - 0 : ℤ) : ℚ)),
    total_price := pyRound (300 : ℚ),
    amenities := ["Wi-Fi", "Breakfast"] }

/-! ### Structural helper lemmas -/

theorem flightLoop_length_le (xs : List Json) (l : List Flight)
    (h : flightLoop xs = .ok l) : l.length ≤ xs.length := by
  induction xs generalizing l with
  | nil =>
    simp only [flightLoop] at h
    cases h
    simp
  | cons o rest ih =>
    simp only [flightLoop] at h
    split at h
    · split at h
      · cases h
        simpa using Nat.succ_le_succ (ih _ (by assumption))
      · cases h
    · split at h
      · exact le_trans (ih _ h) (by simp)
      · cases h

theorem pySlice3_length (j : Json) (l : List Json)
    (h : pySlice3 j = .ok l) : l.length ≤ 3 := by
  cases j <;> simp only [pySlice3] at h <;> try cases h
  case arr xs =>
    simp only [List.length_take]
    omega
  case str s =>
    simp only [List.length_map, List.length_take]
    omega

theorem mapME_length (f : α → Except PyErr β) (xs : List α) (ys : List β)
    (h : mapME f xs = .ok ys) : ys.length = xs.length := by
  induction xs generalizing ys with
  | nil =>
    simp only [mapME] at h
    cases h
    rfl
  | cons a as ih =>
    simp only [mapME] at h
    split at h
    · cases h
    · split at h
      · cases h
      · cases h
        simp [ih _ (by assumption)]

theorem hotelLoop_length_le (destination : String) (checkIn checkOut : ℤ)
    (offersOf : Json → HttpResult) (ids : List Json) :
    (hotelLoop destination checkIn checkOut offersOf ids).length ≤ ids.length := by
  induction ids with
  | nil => simp [hotelLoop]
  | cons id rest ih =>
    simp only [hotelLoop]
    split
    · simpa using Nat.succ_le_succ ih
    · exact le_trans ih (by simp)

theorem fetchParsedFlights_le3 (r : HttpResult) (l : List Flight)
    (h : fetchParsedFlights r = .ok l) : l.length ≤ 3 := by
  cases r with
  | transportErr => simp [fetchParsedFlights] at h
  | resp status body =>
    simp only [fetchParsedFlights] at h
    split at h
    · cases h
    · cases body with
      | none => cases h
      | some j =>
        split at h
        · cases h
        · split at h
          · cases h
          · split at h
            · cases h
            · exact le_trans (flightLoop_length_le _ _ h) (pySlice3_length _ _ (by assumption))

theorem fetchParsedHotels_le3 (destination : String) (checkIn checkOut : ℤ)
    (hl : HttpResult) (offersOf : Json → HttpResult) (l : List Hotel)
    (h : fetchParsedHotels destination checkIn checkOut hl offersOf = .ok l) :
    l.length ≤ 3 := by
  cases hl with
  | transportErr => simp [fetchParsedHotels] at h
  | resp status body =>
    simp only [fetchParsedHotels] at h
    split at h
    · cases h
    · split at h
      · cases h
      · split at h
        · cases h
        · split at h
          · split at h
            · cases h
            · split at h
              · cases h
                simp
              · split at h
                · cases h
                · split at h
                  · cases h
                  · cases h
                    calc (hotelLoop destination checkIn checkOut offersOf _).length
                        ≤ _ := hotelLoop_length_le _ _ _ _ _
                      _ = _ := mapME_length _ _ _ (by assumption)
                      _ ≤ 3 := pySlice3_length _ _ (by assumption)
          · cases h
            simp

theorem mockFlightOptions_length (n : Nat) (rs : RandStream) :
    (mockFlightOptions n rs).length = 3 := rfl

theorem mockHotelOptions_length (d : String) (ci co : ℤ) (rs : RandStream) :
    (mockHotelOptions d ci co rs).length = 3 := rfl

theorem getFlightOptions_bounds (now : ℚ) (numTravelers : Nat) (st : TokenState)
    (up : Upstream) (rs : RandStream) :
    1 ≤ (getFlightOptions now numTravelers st up rs).length
    ∧ (getFlightOptions now numTravelers st up rs).length ≤ 3 := by
  unfold getFlightOptions
  split
  split
  · split
    split
    · split
      · simp [mockFlightOptions]
      · simp [mockFlightOptions]
      · rename_i f fs heq
        refine ⟨by simp, fetchParsedFlights_le3 _ _ heq⟩
    · simp [mockFlightOptions]
  · simp [mockFlightOptions]

theorem getHotelOptions_bounds (now : ℚ) (destination : String) (checkIn checkOut : ℤ)
    (st : TokenState) (up : Upstream) (rs : RandStream) :
    1 ≤ (getHotelOptions now destination checkIn checkOut st up rs).length
    ∧ (getHotelOptions now destination checkIn checkOut st up rs).length ≤ 3 := by
  unfold getHotelOptions
  split
  split
  · split
    split
    · split
      · simp [mockHotelOptions]
      · simp [mockHotelOptions]
      · rename_i h hs heq
        refine ⟨by simp, fetchParsedHotels_le3 _ _ _ _ _ _ heq⟩
    · simp [mockHotelOptions]
  · simp [mockHotelOptions]

theorem cachedValid_after_refresh :
    cachedValid 0 ⟨some (.str "TOK"), some ((0 : ℚ) + 1800 - 60)⟩ = true := by
  simp only [cachedValid, pyTruthy, Bool.and_eq_true, decide_eq_true_eq]
  exact ⟨by decide, by norm_num⟩

theorem getHotelOptions_single (destination : String) (checkIn checkOut : ℤ)
    (body : Json) (h : Hotel)
    (hf : fetchHotelOffer destination checkIn checkOut (.resp 200 (some body))
      = .ok (some h)) :
    getHotelOptions 0 destination checkIn checkOut ⟨none, none⟩ (upHotelBody body) rs0
      = [h] := by
  have hcv0 : cachedValid 0 ⟨none, none⟩ = false := rfl
  have hcv2 : cachedValid 0 ⟨some (.str "TOK"), some ((1800 : ℚ) - 60)⟩ = true := by
    simp only [cachedValid, pyTruthy, Bool.and_eq_true, decide_eq_true_eq]
    exact ⟨by decide, by norm_num⟩
  simp [getHotelOptions, tokenAcquire, getAmadeusToken, getIataCode, hcv0, hcv2,
    refreshToken, upHotelBody, authOkBody, cityOkBody, hotelListBody, truthyOpt,
    pyTruthy, cityExtract, pyAttrGet, jlookup, pyLen, getItem, pyToNum,
    fetchParsedHotels, pySlice3, mapME, hotelLoop, hf]

theorem pyRound_bounds (q : ℚ) : ⌊q⌋ ≤ pyRound q ∧ pyRound q ≤ ⌊q⌋ + 1 := by
  unfold pyRound
  split
  · omega
  · split
    · omega
    · split <;> omega

theorem pyUniform35_round_bounds (u : ℚ) :
    3 ≤ pyRound1 (pyUniform 3 5 u) ∧ pyRound1 (pyUniform 3 5 u) ≤ 5 := by
  have hf0 : (0 : ℚ) ≤ Int.fract u := Int.fract_nonneg u
  have hf1 : Int.fract u < 1 := Int.fract_lt_one u
  have hx1 : 3 ≤ pyUniform 3 5 u := by
    unfold pyUniform
    nlinarith
  have hx2 : pyUniform 3 5 u < 5 := by
    unfold pyUniform
    nlinarith
  have hfl1 : (30 : ℤ) ≤ ⌊pyUniform 3 5 u * 10⌋ := by
    rw [Int.le_floor]
    push_cast
    nlinarith
  have hfl2 : ⌊pyUniform 3 5 u * 10⌋ ≤ 49 := by
    have : ⌊pyUniform 3 5 u * 10⌋ < 50 := by
      rw [Int.floor_lt]
      push_cast
      nlinarith
    omega
  obtain ⟨hb1, hb2⟩ := pyRound_bounds (pyUniform 3 5 u * 10)
  have h1 : (30 : ℚ) ≤ (pyRound (pyUniform 3 5 u * 10) : ℚ) := by
    exact_mod_cast le_trans hfl1 hb1
  have h2 : (pyRound (pyUniform 3 5 u * 10) : ℚ) ≤ 50 := by
    exact_mod_cast le_trans hb2 (by omega)
  unfold pyRound1
  constructor
  · rw [le_div_iff₀ (by norm_num : (0 : ℚ) < 10)]
    linarith
  · rw [div_le_iff₀ (by norm_num : (0 : ℚ) < 10)]
    linarith

theorem mockAmenity_choice_len (raw : Nat) :
    (listChoice mockAmenityOptions raw).length ≤ 5 := by
  have h4 : raw % 4 = 0 ∨ raw % 4 = 1 ∨ raw % 4 = 2 ∨ raw % 4 = 3 := by omega
  rcases h4 with h | h | h | h <;> simp [listChoice, mockAmenityOptions, h]

theorem buildHotel_shape (destination : String) (checkIn checkOut : ℤ)
    (hotelData offer : Json) (h : Hotel)
    (hok : buildHotel destination checkIn checkOut hotelData offer = .ok h) :
    (∃ z : ℤ, h.rating = (z : ℚ) / 10) ∧ h.amenities.length ≤ 5 := by
  unfold buildHotel at hok
  split at hok
  · cases hok
  · split at hok
    · cases hok
    · split at hok
      · cases hok
      · split at hok
        · cases hok
        · split at hok
          · cases hok
          · split at hok
            · cases hok
            · by_cases hne : checkOut - checkIn = 0
              · simp only [if_pos hne] at hok
                cases hok
              · simp only [if_neg hne] at hok
                split at hok
                · cases hok
                · split at hok
                  · cases hok
                  · cases hok
                    refine ⟨⟨_, rfl⟩, ?_⟩
                    simp only [List.length_take]
                    omega

theorem fetchHotelOffer_ok_build (destination : String) (checkIn checkOut : ℤ)
    (r : HttpResult) (h : Hotel)
    (hf : fetchHotelOffer destination checkIn checkOut r = .ok (some h)) :
    ∃ hotelData offer,
      buildHotel destination checkIn checkOut hotelData offer = .ok h := by
  cases r with
  | transportErr => simp [fetchHotelOffer] at hf
  | resp status body =>
    simp only [fetchHotelOffer] at hf
    split at hf <;> try split at hf <;> try split at hf <;> try split at hf <;>
      try split at hf <;> try split at hf <;> try split at hf <;> try split at hf <;>
      try split at hf <;> try split at hf <;> try split at hf
    all_goals
      first
        | (cases hf; exact ⟨_, _, by assumption⟩)
        | cases hf

theorem hotelLoop_mem (destination : String) (checkIn checkOut : ℤ)
    (offersOf : Json → HttpResult) (ids : List Json) (h : Hotel)
    (hm : h ∈ hotelLoop destination checkIn checkOut offersOf ids) :
    ∃ id, fetchHotelOffer destination checkIn checkOut (offersOf id)
      = .ok (some h) := by
  induction ids with
  | nil => simp [hotelLoop] at hm
  | cons id rest ih =>
    simp only [hotelLoop] at hm
    split at hm
    · rcases List.mem_cons.mp hm with heq | hmem
      · subst heq
        exact ⟨id, by assumption⟩
      · exact ih hmem
    · exact ih hm

theorem fetchParsedHotels_mem (destination : String) (checkIn checkOut : ℤ)
    (hl : HttpResult) (offersOf : Json → HttpResult) (l : List Hotel) (h : Hotel)
    (hp : fetchParsedHotels destination checkIn checkOut hl offersOf = .ok l)
    (hm : h ∈ l) :
    ∃ id, fetchHotelOffer destination checkIn checkOut (offersOf id)
      = .ok (some h) := by
  cases hl with
  | transportErr => cases hp
  | resp status body =>
    simp only [fetchParsedHotels] at hp
    split at hp
    · cases hp
    · split at hp
      · cases hp
      · split at hp
        · cases hp
        · split at hp
          · split at hp
            · cases hp
            · split at hp
              · cases hp
                simp at hm
              · split at hp
                · cases hp
                · split at hp
                  · cases hp
                  · cases hp
                    exact hotelLoop_mem _ _ _ _ _ _ hm
          · cases hp
            simp at hm

theorem mkMockHotel_shape (destination : String) (checkIn checkOut : ℤ)
    (rs : RandStream) (i : Nat) :
    (∃ z : ℤ, (mkMockHotel destination checkIn checkOut rs i).rating = (z : ℚ) / 10)
    ∧ (mkMockHotel destination checkIn checkOut rs i).amenities.length ≤ 5
    ∧ 3 ≤ (mkMockHotel destination checkIn checkOut rs i).rating
    ∧ (mkMockHotel destination checkIn checkOut rs i).rating ≤ 5
    ∧ 80 ≤ (mkMockHotel destination checkIn checkOut rs i).price
    ∧ (mkMockHotel destination checkIn checkOut rs i).price ≤ 300 := by
  obtain ⟨hr1, hr2⟩ := pyUniform35_round_bounds (rs.reals i)
  refine ⟨⟨_, rfl⟩, mockAmenity_choice_len _, hr1, hr2, ?_, ?_⟩
  · simp only [mkMockHotel, randintN]
    omega
  · simp only [mkMockHotel, randintN]
    have : rs.ints (3 * i + 1) % 221 < 221 := Nat.mod_lt _ (by norm_num)
    omega

theorem mkMockFlight_spec (n : Nat) (rs : RandStream) (i : Nat) :
    (mkMockFlight n rs i).airline ∈ mockAirlines.map Json.str
    ∧ (∃ hdep, 6 ≤ hdep ∧ hdep ≤ 22
        ∧ (mkMockFlight n rs i).departure_time = pad2 hdep ++ ":00")
    ∧ (∃ d m, 2 ≤ d ∧ d ≤ 8 ∧ m ≤ 59
        ∧ (mkMockFlight n rs i).duration = toString d ++ "h " ++ toString m ++ "m")
    ∧ (mkMockFlight n rs i).stops ≤ 2
    ∧ (∃ p : Nat, 300 ≤ p ∧ p ≤ 800 ∧ (mkMockFlight n rs i).price = ((p * n : Nat) : ℤ)) := by
  refine ⟨?_, ?_, ?_, ?_, ?_⟩
  · have h5 : rs.ints (6 * i) % 5 = 0 ∨ rs.ints (6 * i) % 5 = 1 ∨ rs.ints (6 * i) % 5 = 2
        ∨ rs.ints (6 * i) % 5 = 3 ∨ rs.ints (6 * i) % 5 = 4 := by omega
    rcases h5 with h | h | h | h | h <;>
      simp [mkMockFlight, listChoice, mockAirlines, h]
  · refine ⟨randintN 6 22 (rs.ints (6 * i + 1)), ?_, ?_, rfl⟩
    · simp [randintN]
    · simp only [randintN]
      have : rs.ints (6 * i + 1) % 17 < 17 := Nat.mod_lt _ (by norm_num)
      omega
  · refine ⟨randintN 2 8 (rs.ints (6 * i + 2)), randintN 0 59 (rs.ints (6 * i + 5)),
      ?_, ?_, ?_, rfl⟩
    · simp [randintN]
    · simp only [randintN]
      have : rs.ints (6 * i + 2) % 7 < 7 := Nat.mod_lt _ (by norm_num)
      omega
    · simp only [randintN]
      have : rs.ints (6 * i + 5) % 60 < 60 := Nat.mod_lt _ (by norm_num)
      omega
  · simp only [mkMockFlight, randintN]
    have : rs.ints (6 * i + 3) % 3 < 3 := Nat.mod_lt _ (by norm_num)
    omega
  · refine ⟨randintN 300 800 (rs.ints (6 * i + 4)), ?_, ?_, rfl⟩
    · simp [randintN]
    · simp only [randintN]
      have : rs.ints (6 * i + 4) % 501 < 501 := Nat.mod_lt _ (by norm_num)
      omega

theorem buildHotel_zero_nights (destination : String) (checkIn checkOut : ℤ)
    (hotelData offer : Json) (h : Hotel) (hz : checkOut - checkIn = 0) :
    buildHotel destination checkIn checkOut hotelData offer ≠ .ok h := by
  intro hok
  unfold buildHotel at hok
  simp only [hz] at hok
  split at hok <;> try split at hok <;> try split at hok <;> try split at hok <;>
    try split at hok <;> try split at hok <;> try split at hok
  all_goals simp_all

theorem fetchHotelOffer_zero_nights (destination : String) (checkIn checkOut : ℤ)
    (r : HttpResult) (h : Hotel) (hz : checkOut - checkIn = 0) :
    fetchHotelOffer destination checkIn checkOut r ≠ .ok (some h) := by
  intro hf
  obtain ⟨hd, off, hb⟩ := fetchHotelOffer_ok_build _ _ _ _ _ hf
  exact buildHotel_zero_nights _ _ _ _ _ _ hz hb

theorem hotelLoop_zero_nights (destination : String) (checkIn checkOut : ℤ)
    (offersOf : Json → HttpResult) (ids : List Json) (hz : checkOut - checkIn = 0) :
    hotelLoop destination checkIn checkOut offersOf ids = [] := by
  induction ids with
  | nil => rfl
  | cons id rest ih =>
    simp only [hotelLoop]
    split
    · exact absurd (by assumption)
        (fetchHotelOffer_zero_nights _ _ _ _ _ hz)
    · exact ih

theorem fetchParsedHotels_zero_nights (destination : String) (checkIn checkOut : ℤ)
    (hl : HttpResult) (offersOf : Json → HttpResult) (l : List Hotel)
    (hz : checkOut - checkIn = 0)
    (hp : fetchParsedHotels destination checkIn checkOut hl offersOf = .ok l) :
    l = [] := by
  cases hl with
  | transportErr => cases hp
  | resp status body =>
    simp only [fetchParsedHotels] at hp
    split at hp <;> try split at hp <;> try split at hp <;> try split at hp <;>
      try split at hp <;> try split at hp <;> try split at hp <;> try split at hp
    all_goals
      first
        | (cases hp; rfl)
        | (cases hp; exact hotelLoop_zero_nights _ _ _ _ _ hz)
        | cases hp

/-! ### Claim theorems -/

/-- C1: for every query and every upstream behaviour (auth failure, network
error, HTTP error status, malformed or empty JSON at any endpoint, and any
stay length), both `getFlightOptions` and `getHotelOptions` return a
non-empty list of at most 3 offers. Both functions are total Lean
functions: every fallible step of the source is modelled in `Except` and
every exception value is consumed by one of the translated handlers, which
is the model of "never raises to the caller". -/
theorem resolver_always_populated
    (now : ℚ) (destination : String) (checkIn checkOut : ℤ) (numTravelers : Nat)
    (st : TokenState) (up : Upstream) (rs : RandStream) :
    (1 ≤ (getFlightOptions now numTravelers st up rs).length
      ∧ (getFlightOptions now numTravelers st up rs).length ≤ 3)
    ∧ (1 ≤ (getHotelOptions now destination checkIn checkOut st up rs).length
      ∧ (getHotelOptions now destination checkIn checkOut st up rs).length ≤ 3) :=
  ⟨getFlightOptions_bounds now numTravelers st up rs,
   getHotelOptions_bounds now destination checkIn checkOut st up rs⟩

/-- C2 counterexample: the claim says a parse failure of any kind is
skipped and the remaining offers of the batch are returned. Here the 2nd
of 3 raw offers has a non-numeric price string, so `float(...)` raises
ValueError, which the per-offer handler (`except (KeyError, IndexError)`)
does not catch: the whole batch is aborted and the 3 synthetic offers are
returned instead of the 2 surviving parses (a 2-element result). -/
theorem flight_batch_abort_cx :
    parseFlightOffer (cxOffer (.num 350)) = .ok (cxFlight 350)
    ∧ parseFlightOffer (cxOffer (.str "abc")) = .error .valueError
    ∧ (getFlightOptions 0 2 ⟨none, none⟩
        (upFlights [cxOffer (.num 350), cxOffer (.str "abc"), cxOffer (.num 600)]) rs0).length
        = 3 := by
  refine ⟨rfl, rfl, ?_⟩
  have hcv0 : cachedValid 0 ⟨none, none⟩ = false := rfl
  have hcv2 : cachedValid 0 ⟨some (.str "TOK"), some ((1800 : ℚ) - 60)⟩ = true := by
    simp only [cachedValid, pyTruthy, Bool.and_eq_true, decide_eq_true_eq]
    exact ⟨by decide, by norm_num⟩
  have e1 : parseFlightOffer (cxOffer (.num 350)) = .ok (cxFlight 350) := rfl
  have e2 : parseFlightOffer (cxOffer (.str "abc")) = .error .valueError := rfl
  have e3 : parseFlightOffer (cxOffer (.num 600)) = .ok (cxFlight 600) := rfl
  simp [getFlightOptions, tokenAcquire, getAmadeusToken, getIataCode, hcv0, hcv2,
    refreshToken, upFlights, authOkBody, cityOkBody, truthyOpt, pyTruthy, cityExtract,
    pyAttrGet, jlookup, pyLen, getItem, pyToNum, fetchParsedFlights, pySlice3,
    flightLoop, e1, e2, e3, caughtByOfferLoop, mockFlightOptions]

/-- C2 amended: an offer failing with a caught class (KeyError/IndexError,
i.e. a missing field or index) is skipped and the remaining offers are
returned — in particular 3 raw offers whose 2nd lacks the price field
yield the 2 parses — while a failure of any other class (e.g. a
wrong-typed value) aborts the whole batch to the synthetic fallback. -/
theorem flight_parse_skip :
    (∀ (n : Nat) (rs : RandStream) (o1 o2 o3 : Json) (f1 f3 : Flight) (e : PyErr),
      parseFlightOffer o1 = .ok f1 → parseFlightOffer o2 = .error e →
      caughtByOfferLoop e = true → parseFlightOffer o3 = .ok f3 →
      getFlightOptions 0 n ⟨none, none⟩ (upFlights [o1, o2, o3]) rs = [f1, f3])
    ∧ (∀ (n : Nat) (rs : RandStream) (o1 o2 o3 : Json) (e : PyErr),
      parseFlightOffer o2 = .error e → caughtByOfferLoop e = false →
      getFlightOptions 0 n ⟨none, none⟩ (upFlights [o1, o2, o3]) rs
        = mockFlightOptions n rs) := by
  have hcv0 : cachedValid 0 ⟨none, none⟩ = false := rfl
  have hcv2 : cachedValid 0 ⟨some (.str "TOK"), some ((1800 : ℚ) - 60)⟩ = true := by
    simp only [cachedValid, pyTruthy, Bool.and_eq_true, decide_eq_true_eq]
    exact ⟨by decide, by norm_num⟩
  constructor
  · intro n rs o1 o2 o3 f1 f3 e h1 h2 hc h3
    simp [getFlightOptions, tokenAcquire, getAmadeusToken, getIataCode, hcv0, hcv2,
      refreshToken, upFlights, authOkBody, cityOkBody, truthyOpt, pyTruthy, cityExtract,
      pyAttrGet, jlookup, pyLen, getItem, pyToNum, fetchParsedFlights, pySlice3,
      flightLoop, h1, h2, hc, h3]
  · intro n rs o1 o2 o3 e h2 hc
    cases h1 : parseFlightOffer o1 with
    | ok f1 =>
      simp [getFlightOptions, tokenAcquire, getAmadeusToken, getIataCode, hcv0, hcv2,
        refreshToken, upFlights, authOkBody, cityOkBody, truthyOpt, pyTruthy, cityExtract,
        pyAttrGet, jlookup, pyLen, getItem, pyToNum, fetchParsedFlights, pySlice3,
        flightLoop, h1, h2, hc]
    | error e1 =>
      cases hc1 : caughtByOfferLoop e1 <;>
        simp [getFlightOptions, tokenAcquire, getAmadeusToken, getIataCode, hcv0, hcv2,
          refreshToken, upFlights, authOkBody, cityOkBody, truthyOpt, pyTruthy, cityExtract,
          pyAttrGet, jlookup, pyLen, getItem, pyToNum, fetchParsedFlights, pySlice3,
          flightLoop, h1, h2, hc, hc1]

/-- C2 witness: the amended theorem at a concrete batch whose 2nd offer is
missing its price field (KeyError): the two surviving parses come back. -/
theorem flight_parse_skip_w :
    getFlightOptions 0 2 ⟨none, none⟩
        (upFlights [cxOffer (.num 350), cxOfferNoPrice, cxOffer (.num 600)]) rs0
      = [cxFlight 350, cxFlight 600] :=
  flight_parse_skip.1 2 rs0 (cxOffer (.num 350)) cxOfferNoPrice (cxOffer (.num 600))
    (cxFlight 350) (cxFlight 600) .keyError rfl rfl rfl rfl

/-- C3: if a cached token exists (is set and truthy) and the current time
is strictly before the stored expiry — the stored expiry is the stated
expiry minus 60, so this is "more than 60 seconds before the stated
expiry" — the cached token is returned unchanged with no network call, and
the gap to the stated expiry (`e + 60`) exceeds 60 seconds; moreover every
successful refresh stores `now + expires_in - 60` as the new expiry. -/
theorem token_cache_reuse :
    (∀ (now e : ℚ) (st : TokenState) (t : Json) (resp : HttpResult),
      st.access_token = some t → pyTruthy t = true → st.token_expiry = some e → now < e →
      getAmadeusToken now st resp = (some t, st, false) ∧ 60 < (e + 60) - now)
    ∧ (∀ (now : ℚ) (st st2 : TokenState) (resp : HttpResult) (tok : Json),
      getAmadeusToken now st resp = (some tok, st2, true) →
      ∃ q, respExpiresIn resp = some q ∧ st2.token_expiry = some (now + q - 60)) := by
  constructor
  · intro now e st t resp hT hTruthy hE hNow
    have hcv : cachedValid now st = true := by
      unfold cachedValid
      rw [hT, hE]
      simp [hTruthy, hNow]
    refine ⟨?_, by linarith⟩
    unfold getAmadeusToken
    rw [if_pos hcv, hT]
  · intro now st st2 resp tok hg
    by_cases hcv : cachedValid now st = true
    · unfold getAmadeusToken at hg
      rw [if_pos hcv] at hg
      have h3 := congrArg (fun p : Option Json × TokenState × Bool => p.2.2) hg
      simp at h3
    · unfold getAmadeusToken at hg
      rw [if_neg hcv] at hg
      cases resp with
      | transportErr => cases hg
      | resp status body =>
        simp only [refreshToken] at hg
        split at hg
        · cases hg
        · cases body with
          | none => cases hg
          | some j =>
            split at hg
            · cases hg
            · split at hg
              · cases hg
              · split at hg
                · cases hg
                · split at hg
                  · cases hg
                  · cases hg
                    refine ⟨_, ?_, rfl⟩
                    simp_all [respExpiresIn]

/-- C3 witness: a cached token 100 seconds before its stored expiry at
time 0 is returned unchanged without touching the network. -/
theorem token_cache_reuse_w :
    getAmadeusToken 0 ⟨some (.str "tok"), some 100⟩ .transportErr
      = (some (.str "tok"), ⟨some (.str "tok"), some 100⟩, false)
    ∧ 60 < ((100 : ℚ) + 60) - 0 :=
  token_cache_reuse.1 0 100 ⟨some (.str "tok"), some 100⟩ (.str "tok") .transportErr
    rfl (by decide) rfl (by norm_num)

/-- C4 counterexample: a token exchange whose body carries `access_token`
but no `expires_in` returns the sentinel `None`, yet mutates
`self.access_token` (line 50 runs before line 52 raises), leaving the
cached pair partially updated — the claim says the pair is never partially
mutated on failure. -/
theorem token_partial_mutation_cx :
    getAmadeusToken 5 ⟨some (.str "old"), some 0⟩
        (.resp 200 (some (.obj [("access_token", .str "new")])))
      = (none, ⟨some (.str "new"), some 0⟩, true)
    ∧ (TokenState.mk (some (.str "new")) (some 0)) ≠ ⟨some (.str "old"), some 0⟩ := by
  constructor
  · rfl
  · simp

/-- C4 amended: every failed exchange returns the sentinel without raising
and never touches `token_expiry`; the cached state is either fully
unchanged (transport error, HTTP error, malformed body, missing
`access_token`) or has exactly `access_token` replaced by the response
value when the body carried `access_token` but no usable `expires_in`. -/
theorem token_failure_state :
    ∀ (now : ℚ) (st st2 : TokenState) (resp : HttpResult) (used : Bool),
      getAmadeusToken now st resp = (none, st2, used) →
      st2.token_expiry = st.token_expiry ∧
      (st2 = st ∨ ∃ a, respAccessToken resp = some a ∧ st2 = ⟨some a, st.token_expiry⟩) := by
  intro now st st2 resp used hg
  by_cases hcv : cachedValid now st = true
  · unfold getAmadeusToken at hg
    rw [if_pos hcv] at hg
    have h1 := congrArg (fun p : Option Json × TokenState × Bool => p.1) hg
    simp at h1
    obtain ⟨a, te⟩ := st
    unfold cachedValid at hcv
    simp at h1
    simp [h1] at hcv
  · unfold getAmadeusToken at hg
    rw [if_neg hcv] at hg
    cases resp with
    | transportErr =>
      cases hg
      exact ⟨rfl, Or.inl rfl⟩
    | resp status body =>
      simp only [refreshToken] at hg
      split at hg <;> try split at hg <;> try split at hg <;> try split at hg <;>
        try split at hg
      all_goals first
        | (cases hg; exact ⟨rfl, Or.inl rfl⟩)
        | (cases hg; refine ⟨rfl, Or.inr ⟨_, ?_, rfl⟩⟩; simp_all [respAccessToken])
        | cases hg

/-- C4 witness: the amended theorem at a transport-failed exchange from an
empty cache: state unchanged. -/
theorem token_failure_state_w :
    (TokenState.mk none none).token_expiry = (TokenState.mk none none).token_expiry
    ∧ (TokenState.mk none none = TokenState.mk none none
        ∨ ∃ a, respAccessToken .transportErr = some a
            ∧ TokenState.mk none none = ⟨some a, (TokenState.mk none none).token_expiry⟩) :=
  token_failure_state 0 ⟨none, none⟩ ⟨none, none⟩ .transportErr true rfl

/-- C5 counterexample: an upstream hotel whose rating field holds the
numeric value 9 is returned with rating 9.0, outside the claimed
0.0-5.0 range — the numeric pass-through is not clamped. -/
theorem hotel_rating_range_cx :
    getHotelOptions 0 "Paris" 0 3 ⟨none, none⟩
        (upHotelBody (cxHotelBody (.num 9) (.num 300))) rs0 = [cxH5]
    ∧ ¬(cxH5.rating ≤ 5) := by
  refine ⟨getHotelOptions_single _ _ _ _ _ rfl, ?_⟩
  norm_num [cxH5, pyRound1, pyRound]

/-- C5 amended: every HotelOffer returned by `getHotelOptions` (upstream
or synthetic) has a rating rounded to one decimal (an integer number of
tenths) and at most 5 amenity labels, and its price fields are integers by
construction (`round(...)` produces `ℤ` in the model); synthetic offers
always have ratings inside 0.0-5.0, but an upstream numeric rating passes
through unclamped and can leave that range. -/
theorem hotel_offer_shape
    (now : ℚ) (destination : String) (checkIn checkOut : ℤ) (st : TokenState)
    (up : Upstream) (rs : RandStream) :
    (∀ h ∈ getHotelOptions now destination checkIn checkOut st up rs,
      (∃ z : ℤ, h.rating = (z : ℚ) / 10) ∧ h.amenities.length ≤ 5)
    ∧ (∀ h ∈ mockHotelOptions destination checkIn checkOut rs,
        0 ≤ h.rating ∧ h.rating ≤ 5) := by
  have hmock : ∀ h ∈ mockHotelOptions destination checkIn checkOut rs,
      (∃ z : ℤ, h.rating = (z : ℚ) / 10) ∧ h.amenities.length ≤ 5
      ∧ 3 ≤ h.rating ∧ h.rating ≤ 5 := by
    intro h hm
    simp only [mockHotelOptions, List.mem_cons, List.not_mem_nil, or_false] at hm
    rcases hm with rfl | rfl | rfl <;>
      exact ⟨(mkMockHotel_shape _ _ _ _ _).1, (mkMockHotel_shape _ _ _ _ _).2.1,
        (mkMockHotel_shape _ _ _ _ _).2.2.1, (mkMockHotel_shape _ _ _ _ _).2.2.2.1⟩
  constructor
  · intro h hm
    unfold getHotelOptions at hm
    split at hm
    split at hm
    · split at hm
      split at hm
      · split at hm
        · exact ⟨(hmock h hm).1, (hmock h hm).2.1⟩
        · exact ⟨(hmock h hm).1, (hmock h hm).2.1⟩
        · rename_i l heq
          obtain ⟨hd, off, hb⟩ :=
            fetchHotelOffer_ok_build _ _ _ _ _
              (fetchParsedHotels_mem _ _ _ _ _ _ _ heq hm).choose_spec
          exact buildHotel_shape _ _ _ _ _ _ hb
      · exact ⟨(hmock h hm).1, (hmock h hm).2.1⟩
    · exact ⟨(hmock h hm).1, (hmock h hm).2.1⟩
  · intro h hm
    have := hmock h hm
    exact ⟨le_trans (by norm_num) this.2.2.1, this.2.2.2⟩

/-- C5 witness: the amended theorem applied on the all-transport-failure
path, whose first synthetic offer exhibits the guaranteed shape. -/
theorem hotel_offer_shape_w :
    ((∃ z : ℤ, (mkMockHotel "X" 0 3 rs0 0).rating = (z : ℚ) / 10)
      ∧ (mkMockHotel "X" 0 3 rs0 0).amenities.length ≤ 5)
    ∧ (0 ≤ (mkMockHotel "X" 0 3 rs0 0).rating ∧ (mkMockHotel "X" 0 3 rs0 0).rating ≤ 5) := by
  obtain ⟨h1, h2⟩ := hotel_offer_shape 0 "X" 0 3 ⟨none, none⟩ upDead rs0
  constructor
  · exact h1 _ (List.mem_cons_self _ _)
  · exact h2 _ (List.mem_cons_self _ _)

/-- C6: for every upstream-derived hotel offer built with at least one
night of stay, the price-per-night field is the upstream total price
divided by the number of nights and then rounded. -/
theorem hotel_per_night_price
    (destination : String) (checkIn checkOut : ℤ) (hotelData offer : Json)
    (h : Hotel) (q : ℚ)
    (hok : buildHotel destination checkIn checkOut hotelData offer = .ok h)
    (hq : offerTotal offer = .ok q)
    (hn : 1 ≤ checkOut - checkIn) :
    h.price = pyRound (q / ((checkOut - checkIn : ℤ) : ℚ)) := by
  unfold buildHotel at hok
  split at hok
  · cases hok
  · split at hok
    · cases hok
    · split at hok
      · cases hok
      · split at hok
        · cases hok
        · split at hok
          · cases hok
          · split at hok
            · cases hok
            · rename_i qTot hTot
              have hqq : qTot = q := by
                rw [hTot] at hq
                cases hq
                rfl
              subst hqq
              have hne : checkOut - checkIn ≠ 0 := by omega
              simp only [if_neg hne] at hok
              split at hok
              · cases hok
              · split at hok
                · cases hok
                · cases hok
                  rfl

/-- C6 witness: total price 300 over a 3-night stay yields price per
night 100. -/
theorem hotel_per_night_price_w :
    (1 ≤ (3 : ℤ) - 0)
    ∧ cxHotelPN.price = pyRound ((300 : ℚ) / (((3 : ℤ) - 0 : ℤ) : ℚ))
    ∧ pyRound ((300 : ℚ) / (((3 : ℤ) - 0 : ℤ) : ℚ)) = 100 := by
  refine ⟨by norm_num, ?_, by push_cast; norm_num [pyRound]⟩
  exact hotel_per_night_price "Nice" 0 3 (.obj [("rating", .num 4)])
    (cxPriceOffer (.num 300)) cxHotelPN 300 rfl rfl (by norm_num)

/-- C7: when the upstream flight search returns 5 raw offers that all
parse, `getFlightOptions` returns exactly the parses of the first 3, in
upstream order; and in general every call returns at most 3 offers. -/
theorem flight_cap_first_three
    (n : Nat) (rs : RandStream) (o1 o2 o3 o4 o5 : Json) (f1 f2 f3 : Flight)
    (h1 : parseFlightOffer o1 = .ok f1) (h2 : parseFlightOffer o2 = .ok f2)
    (h3 : parseFlightOffer o3 = .ok f3) :
    getFlightOptions 0 n ⟨none, none⟩ (upFlights [o1, o2, o3, o4, o5]) rs = [f1, f2, f3]
    ∧ ∀ (now' : ℚ) (n' : Nat) (st' : TokenState) (up' : Upstream) (rs' : RandStream),
        (getFlightOptions now' n' st' up' rs').length ≤ 3 := by
  refine ⟨?_, fun now' n' st' up' rs' => (getFlightOptions_bounds now' n' st' up' rs').2⟩
  have hcv0 : cachedValid 0 ⟨none, none⟩ = false := rfl
  have hcv2 : cachedValid 0 ⟨some (.str "TOK"), some ((1800 : ℚ) - 60)⟩ = true := by
    simp only [cachedValid, pyTruthy, Bool.and_eq_true, decide_eq_true_eq]
    exact ⟨by decide, by norm_num⟩
  simp [getFlightOptions, tokenAcquire, getAmadeusToken, getIataCode, hcv0, hcv2,
    cachedValid_after_refresh, refreshToken, upFlights, authOkBody, cityOkBody,
    truthyOpt, pyTruthy, cityExtract, pyAttrGet, jlookup, pyLen, getItem, pyToNum,
    fetchParsedFlights, pySlice3, flightLoop, h1, h2, h3]

/-- C7 witness: five concrete parseable offers come back as the first
three parses, in order. -/
theorem flight_cap_first_three_w :
    getFlightOptions 0 2 ⟨none, none⟩
        (upFlights [cxOffer (.num 350), cxOffer (.num 600), cxOffer (.num 700),
          cxOffer (.num 800), cxOffer (.num 900)]) rs0
      = [cxFlight 350, cxFlight 600, cxFlight 700] :=
  (flight_cap_first_three 2 rs0 (cxOffer (.num 350)) (cxOffer (.num 600))
    (cxOffer (.num 700)) (cxOffer (.num 800)) (cxOffer (.num 900))
    (cxFlight 350) (cxFlight 600) (cxFlight 700) rfl rfl rfl).1

/-- C8 counterexample: the claim says a parseable upstream rating passes
through as the offer rating; with upstream rating 3.25 the returned
rating is `round(3.25, 1) = 3.2`, not 3.25. -/
theorem hotel_rating_passthrough_cx :
    getHotelOptions 0 "Paris" 0 3 ⟨none, none⟩
        (upHotelBody (cxHotelBody (.num (13/4)) (.num 300))) rs0 = [cxH8]
    ∧ cxH8.rating ≠ 13 / 4 := by
  refine ⟨getHotelOptions_single _ _ _ _ _ rfl, ?_⟩
  norm_num [cxH8, pyRound1, pyRound]

/-- C8 amended: the offer rating is the raw rating value rounded to one
decimal, where the raw value is the numeric pass-through when
`float(...)` succeeds and otherwise the fixed category table
(ECONOMY 2.0, STANDARD 3.0, SUPERIOR 4.0, DELUXE 5.0, default 3.0, e.g.
LUXURY gives 3.0); the amenity list is the upstream tokens with
underscores replaced by spaces and title-cased, truncated to 5, the
default [Wi-Fi, Breakfast] being used exactly when the upstream supplies
no amenities. -/
theorem hotel_rating_amenities :
    (∀ (destination : String) (checkIn checkOut : ℤ) (hotelData offer : Json) (h : Hotel)
        (rr : Json),
      buildHotel destination checkIn checkOut hotelData offer = .ok h →
      pyAttrGet hotelData "rating" (.str "3") = .ok rr →
      ∃ q, hotelRating rr = .ok q ∧ h.rating = pyRound1 q)
    ∧ (∀ q : ℚ, hotelRating (.num q) = .ok q)
    ∧ (∀ s q, parseFloat? s = some q → hotelRating (.str s) = .ok q)
    ∧ (hotelRating (.str "ECONOMY") = .ok 2 ∧ hotelRating (.str "STANDARD") = .ok 3
        ∧ hotelRating (.str "SUPERIOR") = .ok 4 ∧ hotelRating (.str "DELUXE") = .ok 5)
    ∧ (∀ s, parseFloat? s = none →
        s ∉ (["ECONOMY", "STANDARD", "SUPERIOR", "DELUXE"] : List String) →
        hotelRating (.str s) = .ok 3)
    ∧ hotelRating (.str "LUXURY") = .ok 3
    ∧ (∀ (destination : String) (checkIn checkOut : ℤ) (hotelData offer : Json) (h : Hotel)
        (ar : Json) (l : List String),
      buildHotel destination checkIn checkOut hotelData offer = .ok h →
      pyAttrGet hotelData "amenities" (.arr []) = .ok ar →
      processAmenities ar = .ok l →
      h.amenities = (if l.isEmpty then ["Wi-Fi", "Breakfast"] else l).take 5)
    ∧ (∀ ss : List String,
        processAmenities (.arr (ss.map .str))
          = .ok (ss.map (fun s => pyTitle (pyReplace s "_" " "))))
    ∧ (∀ xs : List Json, processAmenities (.arr xs) = .ok [] ↔ xs = []) := by
  refine ⟨?_, fun q => rfl, ?_, ⟨rfl, rfl, rfl, rfl⟩, ?_, rfl, ?_, ?_, ?_⟩
  · intro destination checkIn checkOut hotelData offer h rr hok hrr
    unfold buildHotel at hok
    split at hok
    · cases hok
    · split at hok
      · cases hok
      · split at hok
        · cases hok
        · split at hok
          · cases hok
          · rename_i rr2 hrr2
            split at hok
            · cases hok
            · rename_i q2 hq2
              split at hok
              · cases hok
              · by_cases hne : checkOut - checkIn = 0
                · simp only [if_pos hne] at hok
                  cases hok
                · simp only [if_neg hne] at hok
                  split at hok
                  · cases hok
                  · split at hok
                    · cases hok
                    · cases hok
                      rw [hrr2] at hrr
                      cases hrr
                      exact ⟨q2, hq2, rfl⟩
  · intro s q h
    simp [hotelRating, pyFloat, h]
  · intro s hp hmem
    have hms : s ≠ "ECONOMY" ∧ s ≠ "STANDARD" ∧ s ≠ "SUPERIOR" ∧ s ≠ "DELUXE" := by
      simpa using hmem
    simp [hotelRating, pyFloat, hp, ratingMapLookup, hms.1, hms.2.1, hms.2.2.1, hms.2.2.2]
  · intro destination checkIn checkOut hotelData offer h ar l hok har hl
    unfold buildHotel at hok
    split at hok
    · cases hok
    · split at hok
      · cases hok
      · split at hok
        · cases hok
        · split at hok
          · cases hok
          · split at hok
            · cases hok
            · split at hok
              · cases hok
              · by_cases hne : checkOut - checkIn = 0
                · simp only [if_pos hne] at hok
                  cases hok
                · simp only [if_neg hne] at hok
                  split at hok
                  · cases hok
                  · rename_i ar2 har2
                    split at hok
                    · cases hok
                    · rename_i l2 hl2
                      cases hok
                      rw [har2] at har
                      cases har
                      rw [hl2] at hl
                      cases hl
                      rfl
  · intro ss
    induction ss with
    | nil => rfl
    | cons s rest ih =>
      simp only [List.map, processAmenities, iterElems, mapME] at ih ⊢
      rw [ih]
  · intro xs
    constructor
    · intro h
      cases xs with
      | nil => rfl
      | cons a rest =>
        simp only [processAmenities, iterElems] at h
        have := mapME_length _ _ _ h
        simp at this
    · intro h
      subst h
      rfl

/-- C8 witness: LUXURY maps to 3.0, and the concrete build with a numeric
rating links the offer rating to the rounded raw value. -/
theorem hotel_rating_amenities_w :
    hotelRating (.str "LUXURY") = .ok 3
    ∧ (∃ q, hotelRating (.num 4) = .ok q ∧ cxHotelPN.rating = pyRound1 q) := by
  constructor
  · exact hotel_rating_amenities.2.2.2.2.1 "LUXURY" rfl (by decide)
  · exact hotel_rating_amenities.1 "Nice" 0 3 (.obj [("rating", .num 4)])
      (cxPriceOffer (.num 300)) cxHotelPN (.num 4) rfl rfl

/-- C9: for every traveler count and every outcome of the pseudo-random
source, the mock generators return exactly 3 offers each, with airline
from the fixed pool, departure hour 6-22, duration 2-8 hours with 0-59
minutes, stops 0-2, flight price a 300-800 dollar draw multiplied by the
traveler count, hotel rating 3.0-5.0 and nightly price 80-300 dollars;
both generators are total and take no network input. -/
theorem mock_generators_spec
    (numTravelers : Nat) (destination : String) (checkIn checkOut : ℤ)
    (rs : RandStream) :
    (mockFlightOptions numTravelers rs).length = 3
    ∧ (∀ f ∈ mockFlightOptions numTravelers rs,
        f.airline ∈ mockAirlines.map Json.str
        ∧ (∃ hdep, 6 ≤ hdep ∧ hdep ≤ 22 ∧ f.departure_time = pad2 hdep ++ ":00")
        ∧ (∃ d m, 2 ≤ d ∧ d ≤ 8 ∧ m ≤ 59
            ∧ f.duration = toString d ++ "h " ++ toString m ++ "m")
        ∧ f.stops ≤ 2
        ∧ (∃ p : Nat, 300 ≤ p ∧ p ≤ 800 ∧ f.price = ((p * numTravelers : Nat) : ℤ)))
    ∧ (mockHotelOptions destination checkIn checkOut rs).length = 3
    ∧ (∀ h ∈ mockHotelOptions destination checkIn checkOut rs,
        3 ≤ h.rating ∧ h.rating ≤ 5 ∧ 80 ≤ h.price ∧ h.price ≤ 300) := by
  refine ⟨rfl, ?_, rfl, ?_⟩
  · intro f hf
    simp only [mockFlightOptions, List.mem_cons, List.not_mem_nil, or_false] at hf
    rcases hf with rfl | rfl | rfl <;> exact mkMockFlight_spec _ _ _
  · intro h hm
    simp only [mockHotelOptions, List.mem_cons, List.not_mem_nil, or_false] at hm
    rcases hm with rfl | rfl | rfl <;>
      exact ⟨(mkMockHotel_shape _ _ _ _ _).2.2.1, (mkMockHotel_shape _ _ _ _ _).2.2.2.1,
        (mkMockHotel_shape _ _ _ _ _).2.2.2.2.1, (mkMockHotel_shape _ _ _ _ _).2.2.2.2.2⟩

/-- C9 witness: the generator specification at a concrete stream and
traveler count, for the first offer of each list. -/
theorem mock_generators_spec_w :
    (mockFlightOptions 2 rs0).length = 3
    ∧ ((mkMockFlight 2 rs0 0).airline ∈ mockAirlines.map Json.str
        ∧ (∃ hdep, 6 ≤ hdep ∧ hdep ≤ 22
            ∧ (mkMockFlight 2 rs0 0).departure_time = pad2 hdep ++ ":00")
        ∧ (∃ d m, 2 ≤ d ∧ d ≤ 8 ∧ m ≤ 59
            ∧ (mkMockFlight 2 rs0 0).duration = toString d ++ "h " ++ toString m ++ "m")
        ∧ (mkMockFlight 2 rs0 0).stops ≤ 2
        ∧ (∃ p : Nat, 300 ≤ p ∧ p ≤ 800
            ∧ (mkMockFlight 2 rs0 0).price = ((p * 2 : Nat) : ℤ)))
    ∧ (3 ≤ (mkMockHotel "Paris" 0 5 rs0 0).rating
        ∧ (mkMockHotel "Paris" 0 5 rs0 0).rating ≤ 5
        ∧ 80 ≤ (mkMockHotel "Paris" 0 5 rs0 0).price
        ∧ (mkMockHotel "Paris" 0 5 rs0 0).price ≤ 300) := by
  obtain ⟨h1, h2, h3, h4⟩ := mock_generators_spec 2 "Paris" 0 5 rs0
  exact ⟨h1, h2 _ (List.mem_cons_self _ _), h4 _ (List.mem_cons_self _ _)⟩

/-- C10: for a same-day stay (0 nights) the per-hotel division by zero is
caught per hotel, every upstream hotel is skipped, and the call returns
exactly the 3 synthetic offers, each with a total price of 0
(nightly price times 0 nights). -/
theorem same_day_stay_degrades
    (now : ℚ) (destination : String) (day : ℤ) (st : TokenState) (up : Upstream)
    (rs : RandStream) :
    getHotelOptions now destination day day st up rs
      = mockHotelOptions destination day day rs
    ∧ (mockHotelOptions destination day day rs).length = 3
    ∧ ∀ h ∈ mockHotelOptions destination day day rs, h.total_price = 0 := by
  have hz : day - day = (0 : ℤ) := by omega
  refine ⟨?_, rfl, ?_⟩
  · unfold getHotelOptions
    split
    split
    · split
      split
      · split
        · rfl
        · rfl
        · rename_i f fs heq
          have := fetchParsedHotels_zero_nights _ _ _ _ _ _ hz heq
          simp at this
      · rfl
    · rfl
  · intro h hm
    simp only [mockHotelOptions, List.mem_cons, List.not_mem_nil, or_false] at hm
    rcases hm with rfl | rfl | rfl <;> simp [mkMockHotel, hz]

/-- C10 witness: a concrete same-day query against a fully working
upstream degrades to the synthetic offers with zero totals. -/
theorem same_day_stay_degrades_w :
    getHotelOptions 0 "Paris" 5 5 ⟨none, none⟩
        (upHotelBody (cxHotelBody (.num 9) (.num 300))) rs0
      = mockHotelOptions "Paris" 5 5 rs0
    ∧ (mkMockHotel "Paris" 5 5 rs0 0).total_price = 0 := by
  obtain ⟨h1, h2, h3⟩ := same_day_stay_degrades 0 "Paris" 5 ⟨none, none⟩
    (upHotelBody (cxHotelBody (.num 9) (.num 300))) rs0
  exact ⟨h1, h3 _ (List.mem_cons_self _ _)⟩
